import Mathlib

/-!
Verification of the response-parsing and rendering pipeline of the MWPL NSE
dashboard (src/index.tsx).

The TypeScript source is shallowly embedded: DOM mutations become explicit
updates of a `UIState` record, JavaScript numbers become `Rat`, strings become
`String` / `List Char`, and the `await`ed transport call plus `JSON.parse` are
supplied as explicit inputs (an `Except` value and a parse oracle), since both
are platform services, not code of this repository.  Everything else is
translated line by line from src/index.tsx.
-/

/-- Characters removed by JavaScript `String.prototype.trim` (modelled by the
common ASCII whitespace characters; the claims only exercise these). -/
def isJsWhitespace (c : Char) : Bool :=
  c = ' ' || c = '\n' || c = '\t' || c = '\r' || c = '\x0b' || c = '\x0c'

/-- `result.text.trim()` (src/index.tsx:295) on the character list. -/
def trimChars (l : List Char) : List Char :=
  ((l.dropWhile isJsWhitespace).reverse.dropWhile isJsWhitespace).reverse

/-- The literal opening delimiter of the regex at src/index.tsx:298. -/
def openPat : List Char := "```json\n".data

/-- The literal closing delimiter of the regex at src/index.tsx:298. -/
def closePat : List Char := "\n```".data

/-- Index of the leftmost occurrence of `pat` as a contiguous sublist of `l`
(`none` if there is none).  Used to model the lazy quantifier of
/```json\n([\s\S]*?)\n```/: the capture ends at the first later closing
delimiter. -/
def findSub (pat : List Char) : List Char → Option Nat
  | [] => if pat.isPrefixOf ([] : List Char) then some 0 else none
  | c :: rest =>
    if pat.isPrefixOf (c :: rest) then some 0
    else (findSub pat rest).map (· + 1)

/-- The capture group of `responseText.match(/```json\n([\s\S]*?)\n```/)`
(src/index.tsx:298): the regex engine tries each start position left to right;
at the first position where the literal `openPat` matches and some later
`closePat` occurs, the lazy capture extends to the first such `closePat`. -/
def fencedCapture : List Char → Option (List Char)
  | [] => none
  | c :: rest =>
    if openPat.isPrefixOf (c :: rest) then
      match findSub closePat ((c :: rest).drop openPat.length) with
      | some j => some (((c :: rest).drop openPat.length).take j)
      | none => fencedCapture rest
    else fencedCapture rest

/-- The failure taxonomy of the fetch pipeline (spec section 7).  In the source
these are the locally thrown `Error('Could not find a valid JSON block in the
response.')` (src/index.tsx:307), the `SyntaxError` thrown by `JSON.parse`
(src/index.tsx:310), the rejection of the transport call (src/index.tsx:287),
and a `TypeError` thrown mid-render; all are caught by the single handler at
src/index.tsx:349. -/
inductive PipelineError : Type
  | FormatError : PipelineError
  | ParseError : PipelineError
  | TransportError : String → PipelineError
  | RenderError : PipelineError
deriving DecidableEq, Repr

/-- The bare-object fallback condition of src/index.tsx:302:
`responseText.startsWith('{') && responseText.endsWith('}')`. -/
def BareObjectP (t : List Char) : Prop :=
  t.head? = some '{' ∧ t.getLast? = some '}'

instance (t : List Char) : Decidable (BareObjectP t) :=
  inferInstanceAs (Decidable (_ ∧ _))

/-- The `else if / else` tail of src/index.tsx:302-308: accept the whole
trimmed text when it is brace-framed, otherwise throw the format error. -/
def jsonFallback (t : List Char) : Except PipelineError (List Char) :=
  if BareObjectP t then Except.ok t
  else Except.error PipelineError.FormatError

/-- The candidate-selection logic of src/index.tsx:295-308.  The source tests
`if (jsonMatch && jsonMatch[1])`: the capture group must exist *and* be truthy,
so an empty capture (the falsy string) also falls through to the fallback. -/
def extractPayload (raw : String) : Except PipelineError (List Char) :=
  match fencedCapture (trimChars raw.data) with
  | some cap => if cap = [] then jsonFallback (trimChars raw.data) else Except.ok cap
  | none => jsonFallback (trimChars raw.data)

/-- Spec-side notion (spec section 4.1, claim C1): the text contains a fenced
JSON block, i.e. the opening delimiter followed somewhere later by the closing
delimiter. -/
def ContainsFence (t : List Char) : Prop :=
  ∃ pre mid post, t = pre ++ openPat ++ mid ++ closePat ++ post

/-! ## Data model (src/index.tsx:67-82)

JavaScript numbers are modelled as `Rat`; a period sample that is absent in the
parsed JSON (so that `period.value === undefined` holds at src/index.tsx:124 /
198) is `none`. -/

structure PeriodPerformance : Type where
  current : Option Rat
  oneWeekAgo : Option Rat
  twoWeeksAgo : Option Rat
deriving DecidableEq, Repr

structure SectorPerformance : Type where
  sector : String
  performance : PeriodPerformance
deriving DecidableEq, Repr

structure MWPLStockPerformance : Type where
  stock : String
  url : Option String
  mwpl : PeriodPerformance
deriving DecidableEq, Repr

/-- `Object.values(d.performance)` (src/index.tsx:103): the values of the
present keys, in declared key order. -/
def periodValues (p : PeriodPerformance) : List Rat :=
  [p.current, p.oneWeekAgo, p.twoWeeksAgo].filterMap id

/-! ## Sector chart (src/index.tsx:88-148) -/

/-- A rendered sector bar element.  The source element's class attribute is
``chart-bar ${isPositive ? 'positive' : 'negative'} ${period.className}``
(src/index.tsx:131); the two variable class slots are kept as fields.
`widthPct` is the percentage written into `bar.style.width`
(src/index.tsx:134-135); the deferred `setTimeout` application is modelled by
its settled result. -/
structure Bar : Type where
  signClass : String
  periodClass : String
  widthPct : Rat
deriving DecidableEq, Repr

/-- `data.flatMap(d => Object.values(d.performance))` (src/index.tsx:103). -/
def allValues (data : List SectorPerformance) : List Rat :=
  data.flatMap fun d => periodValues d.performance

/-- `Math.max(...allValues.map(v => Math.abs(v)), 1)` (src/index.tsx:104). -/
def maxPerformance (data : List SectorPerformance) : Rat :=
  ((allValues data).map fun v => |v|).foldr max 1

/-- One sector bar from a present period value (src/index.tsx:129-135). -/
def mkSectorBar (maxP : Rat) (cls : String) (v : Rat) : Bar :=
  { signClass := if 0 ≤ v then "positive" else "negative"
    periodClass := cls
    widthPct := |v| / maxP * 100 }

/-- The fixed period descriptor list of src/index.tsx:117-121 (also
src/index.tsx:192-196, which uses the same class names). -/
def sectorPeriods (p : PeriodPerformance) : List (Option Rat × String) :=
  [(p.current, "current"), (p.oneWeekAgo, "one-week"), (p.twoWeeksAgo, "two-weeks")]

/-- The bar loop of src/index.tsx:123-139: periods in declared order, a period
with an absent value is skipped (`continue`), never emitted as a zero-width
bar. -/
def sectorBars (maxP : Rat) (p : PeriodPerformance) : List Bar :=
  (sectorPeriods p).filterMap fun pr => pr.1.map (mkSectorBar maxP pr.2)

/-- The whole sector chart (src/index.tsx:106-144): one labelled bar group per
item, labels are plain text nodes (`label.textContent = data.sector`). -/
def sectorChart (data : List SectorPerformance) : List (String × List Bar) :=
  data.map fun d => (d.sector, sectorBars (maxPerformance data) d.performance)

/-! ## MWPL chart (src/index.tsx:154-223) -/

/-- A rendered MWPL bar.  Its class attribute is ``chart-bar
${period.className}`` (src/index.tsx:206): there is no positive/negative slot,
so the embedded element has no sign field. -/
structure MwplBar : Type where
  periodClass : String
  widthPct : Rat
deriving DecidableEq, Repr

/-- An item label: a text node, or a hyperlink when `data.url` is truthy
(src/index.tsx:178-187). -/
inductive ChartLabel : Type
  | text : String → ChartLabel
  | link : String → String → ChartLabel
deriving DecidableEq, Repr

/-- `if (data.url)` (src/index.tsx:178): an absent or empty (falsy) url gives a
plain text label. -/
def mwplLabel (d : MWPLStockPerformance) : ChartLabel :=
  match d.url with
  | some u => if u = "" then ChartLabel.text d.stock else ChartLabel.link u d.stock
  | none => ChartLabel.text d.stock

/-- One MWPL bar (src/index.tsx:204-210); the divisor is the constant 100 of
src/index.tsx:169, and the value is not clamped. -/
def mkMwplBar (cls : String) (v : Rat) : MwplBar :=
  { periodClass := cls, widthPct := |v| / 100 * 100 }

/-- The bar loop of src/index.tsx:198-214. -/
def mwplBars (p : PeriodPerformance) : List MwplBar :=
  (sectorPeriods p).filterMap fun pr => pr.1.map (mkMwplBar pr.2)

/-- The whole MWPL chart (src/index.tsx:171-219). -/
def mwplChart (data : List MWPLStockPerformance) : List (ChartLabel × List MwplBar) :=
  data.map fun d => (mwplLabel d, mwplBars d.mwpl)

/-! ## Market summary (src/index.tsx:229-247) -/

structure MarketSummary : Type where
  marketOverview : String
  keySectorNews : String
  majorCorporateAnnouncements : String
  economicPolicyFactors : String
deriving DecidableEq, Repr

/-- The template literal assigned to `newsContainer.innerHTML`
(src/index.tsx:235-245), reproduced byte for byte: the four summary fields are
interpolated verbatim, with no HTML escaping. -/
def summaryMarkup (sm : MarketSummary) : String :=
  "\n    <h2>Market Summary</h2>\n    <h3>Market Overview</h3>\n    <p>"
    ++ sm.marketOverview
    ++ "</p>\n    <h3>Key Sector News</h3>\n    <p>"
    ++ sm.keySectorNews
    ++ "</p>\n    <h3>Major Corporate Announcements</h3>\n    <p>"
    ++ sm.majorCorporateAnnouncements
    ++ "</p>\n    <h3>Economic/Policy Factors</h3>\n    <p>"
    ++ sm.economicPolicyFactors
    ++ "</p>\n  "

/-! ## Grounding citations (src/index.tsx:323-347) -/

/-- `chunk.web` of a grounding chunk: a web reference with optional uri and
title. -/
structure WebRef : Type where
  uri : Option String
  title : Option String
deriving DecidableEq, Repr

/-- A raw grounding chunk (`groundingMetadata.groundingChunks` element). -/
structure Chunk : Type where
  web : Option WebRef
deriving DecidableEq, Repr

/-- A rendered source link (src/index.tsx:336-343). -/
structure SourceLink : Type where
  href : String
  text : String
deriving DecidableEq, Repr

/-- The filter of src/index.tsx:328 (`if (chunk.web && chunk.web.uri)`) and the
set key of src/index.tsx:329: `JSON.stringify({uri, title})` is injective on
the (uri, optional title) pair, so the key is modelled by the pair itself.  An
empty uri string is falsy and filtered out. -/
def chunkKey (c : Chunk) : Option (String × Option String) :=
  match c.web with
  | none => none
  | some w =>
    match w.uri with
    | none => none
    | some u => if u = "" then none else some (u, w.title)

/-- Insertion into a JavaScript `Set` keeps the first occurrence and preserves
insertion order on iteration; `seen` accumulates the members already added. -/
def dedupAux {α : Type} [DecidableEq α] : List α → List α → List α
  | [], _ => []
  | a :: rest, seen =>
    if a ∈ seen then dedupAux rest seen else a :: dedupAux rest (a :: seen)

def dedupKeepFirst {α : Type} [DecidableEq α] (l : List α) : List α :=
  dedupAux l []

/-- The deduplicated key list built by the `Set` loop of src/index.tsx:326-331,
in iteration (= insertion) order. -/
def sourceKeys (chunks : List Chunk) : List (String × Option String) :=
  dedupKeepFirst (chunks.filterMap chunkKey)

/-- One rendered link (src/index.tsx:336-343): visible text is
`source.title || source.uri`, so an absent or empty (falsy) title falls back to
the uri. -/
def linkOfKey (k : String × Option String) : SourceLink :=
  { href := k.1
    text := match k.2 with
            | some t => if t = "" then k.1 else t
            | none => k.1 }

/-! ## UI state and the controller (src/index.tsx:35-65, 252-355)

Each DOM container becomes a visibility flag plus its current content; the
loader and the trigger button become flags.  `none` / `[]` / `""` content
models a cleared (`innerHTML = ''`) container. -/

structure UIState : Type where
  loaderVisible : Bool
  fetchBtnDisabled : Bool
  newsVisible : Bool
  newsHtml : String
  perfVisible : Bool
  perfChart : Option (List (String × List Bar))
  mwplVisible : Bool
  mwplChart : Option (List (ChartLabel × List MwplBar))
  sourcesVisible : Bool
  sourcesItems : List SourceLink
  errorVisible : Bool
  errorBanner : String
deriving DecidableEq, Repr

/-- A concrete page-load state: everything hidden and empty, button enabled. -/
def initialUI : UIState :=
  { loaderVisible := false, fetchBtnDisabled := false
    newsVisible := false, newsHtml := ""
    perfVisible := false, perfChart := none
    mwplVisible := false, mwplChart := none
    sourcesVisible := false, sourcesItems := []
    errorVisible := false, errorBanner := "" }

/-- `displayError` (src/index.tsx:35-42): hides the four result containers
(without clearing their contents) and shows the message.  It touches neither
the loader nor the trigger button. -/
def displayError (message : String) (ui : UIState) : UIState :=
  { ui with newsVisible := false, sourcesVisible := false,
            perfVisible := false, mwplVisible := false,
            errorBanner := message, errorVisible := true }

/-- `setLoading` (src/index.tsx:48-65): entering the loading state shows the
loader, disables the button, clears and hides every result container and hides
the error banner; leaving it hides the loader and re-enables the button. -/
def setLoading (isLoading : Bool) (ui : UIState) : UIState :=
  if isLoading then
    { ui with loaderVisible := true, fetchBtnDisabled := true,
              newsHtml := "", newsVisible := false,
              perfChart := none, perfVisible := false,
              mwplChart := none, mwplVisible := false,
              sourcesItems := [], sourcesVisible := false,
              errorVisible := false }
  else
    { ui with loaderVisible := false, fetchBtnDisabled := false }

/-- `renderSummary` (src/index.tsx:229-247). -/
def renderSummary (sm : MarketSummary) (ui : UIState) : UIState :=
  { ui with newsHtml := summaryMarkup sm, newsVisible := true }

/-- `renderSectorGraphs` (src/index.tsx:88-148) as a state update. -/
def renderSectorGraphs (data : List SectorPerformance) (ui : UIState) : UIState :=
  { ui with perfChart := some (sectorChart data), perfVisible := true }

/-- `renderMWPLChart` (src/index.tsx:154-223) as a state update. -/
def renderMWPLChart (data : List MWPLStockPerformance) (ui : UIState) : UIState :=
  { ui with mwplChart := some (mwplChart data), mwplVisible := true }

/-- The sources block of src/index.tsx:323-347: skipped entirely when the
optional chain yields no chunk list; otherwise the list is cleared and rebuilt,
and the container is shown only when the deduplicated set is non-empty. -/
def renderSources (chunks? : Option (List Chunk)) (ui : UIState) : UIState :=
  match chunks? with
  | none => ui
  | some chunks =>
    let keys := sourceKeys chunks
    if keys = [] then { ui with sourcesItems := [] }
    else { ui with sourcesItems := keys.map linkOfKey, sourcesVisible := true }

/-! ## Parsed payload shape (src/index.tsx:310-320)

`JSON.parse` returns an untyped value; the controller only tests the
truthiness of the three top-level keys before handing each to its renderer.  A
top-level field is therefore modelled in three states: `absent` (missing or
falsy, so its `if` guard skips the section), `present` (truthy and of the
declared shape), or `illTyped` (truthy but of the wrong runtime shape).  An
ill-typed chart section throws when the renderer calls an array method on it
(`performanceData.flatMap` at src/index.tsx:103, `mwplData.forEach` at
src/index.tsx:171 — a TypeError on any non-array).  An ill-typed summary does
NOT throw: the template of src/index.tsx:235-245 merely interpolates its
missing properties as the string "undefined". -/

inductive JsField (α : Type) : Type
  | absent : JsField α
  | present : α → JsField α
  | illTyped : JsField α
deriving DecidableEq, Repr

/-- JavaScript truthiness of a top-level field as tested by the guards at
src/index.tsx:312, 315, 318. -/
def JsField.truthy {α : Type} : JsField α → Bool
  | .absent => false
  | _ => true

structure ParsedData : Type where
  summary : JsField MarketSummary
  sectorPerformance : JsField (List SectorPerformance)
  mwplPerformance : JsField (List MWPLStockPerformance)
deriving DecidableEq, Repr

/-- Interpolating the properties of a truthy non-object: each reads as
`undefined` and is rendered as the string "undefined". -/
def undefinedSummary : MarketSummary :=
  { marketOverview := "undefined", keySectorNews := "undefined"
    majorCorporateAnnouncements := "undefined", economicPolicyFactors := "undefined" }

/-- `if (data.summary) renderSummary(data.summary)` (src/index.tsx:312-314). -/
def renderSummarySection (fld : JsField MarketSummary) (ui : UIState) : UIState :=
  match fld with
  | .absent => ui
  | .present sm => renderSummary sm ui
  | .illTyped => renderSummary undefinedSummary ui

/-- One guarded chart-section step (src/index.tsx:315-320): skipped when the
field is falsy, rendered when present, and a thrown TypeError propagated (as
`PipelineError.RenderError`) when the truthy value has the wrong shape.  A
previously raised error short-circuits the rest of the `try` block. -/
def stepSection {β : Type} (render : β → UIState → UIState) (fld : JsField β)
    (acc : UIState × Option PipelineError) : UIState × Option PipelineError :=
  match acc with
  | (ui, some e) => (ui, some e)
  | (ui, none) =>
    match fld with
    | .absent => (ui, none)
    | .present b => (render b ui, none)
    | .illTyped => (ui, some PipelineError.RenderError)

/-- The section-rendering block of src/index.tsx:312-320, in source order:
summary, then sector chart, then MWPL chart. -/
def renderSections (d : ParsedData) (ui : UIState) : UIState × Option PipelineError :=
  stepSection renderMWPLChart d.mwplPerformance
    (stepSection renderSectorGraphs d.sectorPerformance
      (renderSummarySection d.summary ui, none))

/-! ## The fetch cycle (src/index.tsx:252-355) -/

/-- The transport result: the `await`ed `ai.models.generateContent` call either
rejects (carrying its stringified error) or resolves to the response text plus
the optional `candidates?.[0]?.groundingMetadata?.groundingChunks` chain
(src/index.tsx:287-295, 323). -/
structure ModelResponse : Type where
  text : String
  groundingChunks : Option (List Chunk)
deriving DecidableEq, Repr

/-- `${error}` stringification used by the handler at src/index.tsx:351.  The
exact engine texts of the `SyntaxError` / `TypeError` are platform detail; only
the locally constructed format message is fixed by the source
(src/index.tsx:307). -/
def describeError : PipelineError → String
  | .FormatError => "Error: Could not find a valid JSON block in the response."
  | .ParseError => "SyntaxError: unexpected token in JSON"
  | .TransportError m => m
  | .RenderError => "TypeError: wrong runtime shape"

def fetchFailureMessage (e : PipelineError) : String :=
  "An error occurred while fetching news: " ++ describeError e

/-- The `try` block of src/index.tsx:286-347, threading the UI state and the
first raised error.  `parse` is the `JSON.parse`-plus-property-access oracle:
`none` models a `SyntaxError` on the candidate string. -/
def tryBlock (parse : List Char → Option ParsedData)
    (transport : Except String ModelResponse)
    (ui : UIState) : UIState × Option PipelineError :=
  match transport with
  | .error m => (ui, some (PipelineError.TransportError m))
  | .ok resp =>
    match extractPayload resp.text with
    | .error e => (ui, some e)
    | .ok cand =>
      match parse cand with
      | none => (ui, some PipelineError.ParseError)
      | some d =>
        match renderSections d ui with
        | (ui2, some e) => (ui2, some e)
        | (ui2, none) => (renderSources resp.groundingChunks ui2, none)

/-- `fetchNews` (src/index.tsx:252-355): the not-initialized early return, the
`setLoading(true)` entry, the `try` body, the `catch` handler
(src/index.tsx:349-351) and the `finally { setLoading(false) }`
(src/index.tsx:352-354). -/
def fetchNews (aiInit : Bool) (parse : List Char → Option ParsedData)
    (transport : Except String ModelResponse) (ui : UIState) : UIState :=
  if aiInit then
    let r := tryBlock parse transport (setLoading true ui)
    match r.2 with
    | none => setLoading false r.1
    | some e => setLoading false (displayError (fetchFailureMessage e) r.1)
  else
    displayError "AI client is not initialized." ui

/-! ## Lemmas about the fence-matching algorithm -/

theorem findSub_some_prefix {pat l : List Char} {j : Nat}
    (h : findSub pat l = some j) : pat <+: l.drop j := by
  induction l generalizing j with
  | nil =>
    simp only [findSub] at h
    split at h
    · rename_i hp
      cases h
      simpa using List.isPrefixOf_iff_prefix.mp hp
    · cases h
  | cons c rest ih =>
    simp only [findSub] at h
    split at h
    · rename_i hp
      cases h
      simpa using List.isPrefixOf_iff_prefix.mp hp
    · rcases Option.map_eq_some'.mp h with ⟨j', hj', rfl⟩
      simpa [List.drop_succ_cons] using ih hj'

theorem findSub_isSome_of_decomp (pat a b : List Char) :
    (findSub pat (a ++ pat ++ b)).isSome := by
  induction a with
  | nil =>
    have hp : pat.isPrefixOf (pat ++ b) = true :=
      List.isPrefixOf_iff_prefix.mpr (List.prefix_append _ _)
    simp only [List.nil_append]
    cases hl : pat ++ b with
    | nil =>
      rw [hl] at hp
      simp [findSub, hp]
    | cons c cs =>
      rw [hl] at hp
      simp only [findSub, hp, if_pos]
      rfl
  | cons x a' ih =>
    simp only [List.cons_append]
    by_cases hp : pat.isPrefixOf (x :: (a' ++ pat ++ b)) = true
    · simp only [findSub, hp, if_pos]
      rfl
    · simp only [findSub, hp, if_neg, Bool.false_eq_true, ite_false]
      rcases Option.isSome_iff_exists.mp ih with ⟨j, hj⟩
      rw [hj]
      rfl

theorem fencedCapture_sound {t cap : List Char} (h : fencedCapture t = some cap) :
    ∃ pre post, t = pre ++ openPat ++ cap ++ closePat ++ post := by
  induction t with
  | nil => simp [fencedCapture] at h
  | cons c rest ih =>
    simp only [fencedCapture] at h
    split at h
    · rename_i hp
      split at h
      · rename_i j hf
        have hcap : ((c :: rest).drop openPat.length).take j = cap :=
          Option.some.inj h
        subst hcap
        have hpre : c :: rest = openPat ++ (c :: rest).drop openPat.length := by
          rcases List.isPrefixOf_iff_prefix.mp hp with ⟨u, hu⟩
          rw [← hu, List.drop_left]
        rcases findSub_some_prefix hf with ⟨post, hpost⟩
        refine ⟨[], post, ?_⟩
        rw [List.nil_append]
        calc c :: rest = openPat ++ (c :: rest).drop openPat.length := hpre
          _ = openPat ++ (((c :: rest).drop openPat.length).take j
                ++ ((c :: rest).drop openPat.length).drop j) := by
                rw [List.take_append_drop]
          _ = openPat ++ (((c :: rest).drop openPat.length).take j ++ (closePat ++ post)) := by
                rw [hpost]
          _ = openPat ++ ((c :: rest).drop openPat.length).take j ++ closePat ++ post := by
                simp [List.append_assoc]
      · rcases ih h with ⟨pre, post, hde⟩
        exact ⟨c :: pre, post, by simp [hde, List.append_assoc]⟩
    · rcases ih h with ⟨pre, post, hde⟩
      exact ⟨c :: pre, post, by simp [hde, List.append_assoc]⟩

theorem fencedCapture_isSome_of_fence {t : List Char} (h : ContainsFence t) :
    (fencedCapture t).isSome := by
  rcases h with ⟨pre, mid, post, rfl⟩
  induction pre with
  | nil =>
    simp only [List.nil_append]
    rw [show openPat ++ mid ++ closePat ++ post
        = openPat ++ (mid ++ closePat ++ post) from by simp [List.append_assoc]]
    cases hl : openPat ++ (mid ++ closePat ++ post) with
    | nil =>
      exfalso
      rcases List.append_eq_nil.mp hl with ⟨hop, _⟩
      exact absurd hop (by decide)
    | cons c cs =>
      have hp : openPat.isPrefixOf (c :: cs) = true := by
        rw [← hl]
        exact List.isPrefixOf_iff_prefix.mpr (List.prefix_append _ _)
      have htail : (c :: cs).drop openPat.length = mid ++ closePat ++ post := by
        rw [← hl, List.drop_left]
      have hfs : (findSub closePat ((c :: cs).drop openPat.length)).isSome := by
        rw [htail]
        exact findSub_isSome_of_decomp closePat mid post
      rcases Option.isSome_iff_exists.mp hfs with ⟨j, hj⟩
      simp only [fencedCapture, hp, if_pos, hj]
      rfl
  | cons x pre' ih =>
    simp only [List.cons_append]
    by_cases hp : openPat.isPrefixOf (x :: (pre' ++ openPat ++ mid ++ closePat ++ post)) = true
    · have hlen : openPat.length ≤ (x :: (pre' ++ openPat ++ mid)).length := by
        simp [List.length_append]
        omega
      have htail : (x :: (pre' ++ openPat ++ mid ++ closePat ++ post)).drop openPat.length
          = ((x :: (pre' ++ openPat ++ mid)).drop openPat.length) ++ closePat ++ post := by
        rw [show x :: (pre' ++ openPat ++ mid ++ closePat ++ post)
            = (x :: (pre' ++ openPat ++ mid)) ++ (closePat ++ post) from by
              simp [List.append_assoc],
          List.drop_append_eq_append_drop, Nat.sub_eq_zero_of_le hlen, List.drop_zero]
        simp [List.append_assoc]
      have hfs : (findSub closePat
          ((x :: (pre' ++ openPat ++ mid ++ closePat ++ post)).drop openPat.length)).isSome := by
        rw [htail]
        exact findSub_isSome_of_decomp closePat _ post
      rcases Option.isSome_iff_exists.mp hfs with ⟨j, hj⟩
      simp only [fencedCapture, hp, if_pos, hj]
      rfl
    · simp only [fencedCapture, hp, if_neg, Bool.false_eq_true, ite_false]
      exact ih

/-! ## Claim C1 -/

/-- C1 (amended): candidate selection of the PayloadExtractor.  If the trimmed
response text contains a fenced JSON block (the delimiter `` ```json `` ending
a line, a later line starting with `` ``` ``), the match is the first,
non-greedy capture, and the extractor returns it provided it is non-empty —
an empty capture is falsy in the `if (jsonMatch && jsonMatch[1])` test and
falls through to the fallback.  When no fence is found (or the capture is
empty) the fallback returns the whole trimmed text when it starts with a
left brace and ends with a right brace, and otherwise fails with the
FormatError ("no JSON payload located"). -/
theorem c1_payload_extraction (raw : String) (cap : List Char) :
    (fencedCapture (trimChars raw.data) = some cap →
       (∃ pre post, trimChars raw.data = pre ++ openPat ++ cap ++ closePat ++ post) ∧
       (cap ≠ [] → extractPayload raw = Except.ok cap) ∧
       (cap = [] → extractPayload raw = jsonFallback (trimChars raw.data))) ∧
    (ContainsFence (trimChars raw.data) ↔ (fencedCapture (trimChars raw.data)).isSome) ∧
    (fencedCapture (trimChars raw.data) = none →
       extractPayload raw = jsonFallback (trimChars raw.data)) ∧
    (BareObjectP (trimChars raw.data) →
       jsonFallback (trimChars raw.data) = Except.ok (trimChars raw.data)) ∧
    (¬ BareObjectP (trimChars raw.data) →
       jsonFallback (trimChars raw.data) = Except.error PipelineError.FormatError) := by
  refine ⟨?_, ⟨fun h => fencedCapture_isSome_of_fence h, fun h => ?_⟩, ?_, ?_, ?_⟩
  · intro h
    refine ⟨fencedCapture_sound h, fun hne => ?_, fun he => ?_⟩
    · simp [extractPayload, h, hne]
    · simp [extractPayload, h, he]
  · rcases Option.isSome_iff_exists.mp h with ⟨c, hc⟩
    rcases fencedCapture_sound hc with ⟨pre, post, hde⟩
    exact ⟨pre, c, post, hde⟩
  · intro h
    simp [extractPayload, h]
  · intro hb
    simp [jsonFallback, hb]
  · intro hb
    simp [jsonFallback, hb]

/-- C1 witness: a response with prose around a fenced block; the extractor
returns exactly the capture. -/
theorem c1_payload_extraction_witness :
    (fencedCapture (trimChars "Here is data:\n```json\n[1, 2]\n```\nthanks".data)
        = some ("[1, 2]".data) ∧ "[1, 2]".data ≠ ([] : List Char)) ∧
    extractPayload "Here is data:\n```json\n[1, 2]\n```\nthanks" = Except.ok ("[1, 2]".data) :=
  ⟨⟨by decide, by decide⟩,
   ((c1_payload_extraction "Here is data:\n```json\n[1, 2]\n```\nthanks" ("[1, 2]".data)).1
      (by decide)).2.1 (by decide)⟩

/-- C1 counterexample: the text consisting exactly of an opening marker line,
an empty line and a closing marker line is a well-formed fenced JSON block
whose fenced content is the empty string, yet the extractor does not return
that content: the empty capture is falsy, the fallback does not apply, and the
cycle fails with the FormatError — refuting the claim that the extractor
returns exactly the fenced content of every well-formed fenced block. -/
theorem c1_payload_extraction_counterexample :
    ContainsFence (trimChars "```json\n\n```".data) ∧
    fencedCapture (trimChars "```json\n\n```".data) = some [] ∧
    extractPayload "```json\n\n```" = Except.error PipelineError.FormatError :=
  ⟨⟨[], [], [], by decide⟩, by decide, by rfl⟩

/-! ## Lemmas about the charts -/

theorem foldr_max_one (l : List Rat) : l.foldr max 1 = max 1 (l.foldr max 0) := by
  induction l with
  | nil =>
    show (1 : Rat) = max 1 0
    rw [max_eq_left]
    exact zero_le_one
  | cons a l ih =>
    show max a (l.foldr max 1) = max 1 (max a (l.foldr max 0))
    rw [ih, max_left_comm]

theorem sectorBars_mem {maxP : Rat} {p : PeriodPerformance} {b : Bar}
    (hb : b ∈ sectorBars maxP p) :
    ∃ v, v ∈ periodValues p ∧ b.widthPct = |v| / maxP * 100 ∧
      b.signClass = (if 0 ≤ v then "positive" else "negative") := by
  rcases p with ⟨c0, o0, t0⟩
  rcases List.mem_filterMap.mp hb with ⟨pr, hpr, hmap⟩
  rcases Option.map_eq_some'.mp hmap with ⟨v, hv, rfl⟩
  simp only [sectorPeriods, List.mem_cons, List.not_mem_nil, or_false] at hpr
  refine ⟨v, ?_, rfl, rfl⟩
  rcases hpr with rfl | rfl | rfl <;> simp_all [periodValues]

theorem mwplBars_mem {p : PeriodPerformance} {b : MwplBar}
    (hb : b ∈ mwplBars p) :
    ∃ v, v ∈ periodValues p ∧ b.widthPct = |v| / 100 * 100 ∧
      (b.periodClass = "current" ∨ b.periodClass = "one-week"
        ∨ b.periodClass = "two-weeks") := by
  rcases p with ⟨c0, o0, t0⟩
  rcases List.mem_filterMap.mp hb with ⟨pr, hpr, hmap⟩
  rcases Option.map_eq_some'.mp hmap with ⟨v, hv, rfl⟩
  simp only [sectorPeriods, List.mem_cons, List.not_mem_nil, or_false] at hpr
  rcases hpr with rfl | rfl | rfl <;>
    exact ⟨v, by simp_all [periodValues], rfl, by simp [mkMwplBar]⟩

/-- The worked example of the spec: sector values 10, -20 and 5. -/
def exSectorData : List SectorPerformance :=
  [⟨"NIFTY IT", ⟨some 10, none, none⟩⟩,
   ⟨"NIFTY PHARMA", ⟨some (-20), none, none⟩⟩,
   ⟨"NIFTY AUTO", ⟨some 5, none, none⟩⟩]

/-! ## Claim C2 -/

/-- C2: relative-max scaling of the sector chart.  The denominator is
max(1, max |v|) over all present period values of all items; every rendered
bar has width percentage |v| / denominator * 100 and carries the positive
class exactly when its value is ≥ 0; on the example values [10, -20, 5] the
bar widths are 50%, 100% and 25%. -/
theorem c2_sector_relative_max_scaling (data : List SectorPerformance)
    (_hne : data ≠ []) :
    maxPerformance data = max 1 (((allValues data).map fun v => |v|).foldr max 0) ∧
    (∀ d ∈ data, ∀ b ∈ sectorBars (maxPerformance data) d.performance,
       ∃ v, v ∈ periodValues d.performance ∧
         b.widthPct = |v| / maxPerformance data * 100 ∧
         b.signClass = (if 0 ≤ v then "positive" else "negative")) ∧
    (sectorChart exSectorData).map (fun it => it.2.map Bar.widthPct)
      = [[50], [100], [25]] ∧
    (sectorChart exSectorData).map (fun it => it.2.map Bar.signClass)
      = [["positive"], ["negative"], ["positive"]] :=
  ⟨foldr_max_one _, fun _ _ _ hb => sectorBars_mem hb,
   by
     norm_num [sectorChart, exSectorData, sectorBars, sectorPeriods, mkSectorBar,
       maxPerformance, allValues, periodValues, List.filterMap_cons,
       List.filterMap_nil, List.foldr_cons, List.foldr_nil, abs, max_def],
   by
     norm_num [sectorChart, exSectorData, sectorBars, sectorPeriods, mkSectorBar,
       maxPerformance, allValues, periodValues, List.filterMap_cons,
       List.filterMap_nil, List.foldr_cons, List.foldr_nil, abs, max_def]⟩

/-- C2 witness at the example data. -/
theorem c2_sector_relative_max_scaling_witness :
    exSectorData ≠ [] ∧
    maxPerformance exSectorData
      = max 1 (((allValues exSectorData).map fun v => |v|).foldr max 0) :=
  ⟨by decide, (c2_sector_relative_max_scaling exSectorData (by decide)).1⟩

/-! ## Claim C3 -/

/-- Spec-side description: the period classes that should appear, one per
present value, in the fixed declared order. -/
def presentClasses (p : PeriodPerformance) : List String :=
  (if p.current.isSome then ["current"] else [])
    ++ (if p.oneWeekAgo.isSome then ["one-week"] else [])
    ++ (if p.twoWeeksAgo.isSome then ["two-weeks"] else [])

/-- C3: in both charts a bar is created for a period exactly when its value is
present, in the fixed order current, oneWeekAgo, twoWeeksAgo (witnessed by the
class lists and the bar counts); an item with all three values absent yields no
bars, yet every item of either chart still yields its labelled bar-group
entry. -/
theorem c3_bars_iff_present (m : Rat) (p : PeriodPerformance)
    (data : List SectorPerformance) (mdata : List MWPLStockPerformance) :
    ((sectorBars m p).map Bar.periodClass = presentClasses p ∧
     (mwplBars p).map MwplBar.periodClass = presentClasses p ∧
     (sectorBars m p).length = (periodValues p).length ∧
     (mwplBars p).length = (periodValues p).length) ∧
    sectorBars m ⟨none, none, none⟩ = [] ∧
    mwplBars ⟨none, none, none⟩ = [] ∧
    (sectorChart data).map Prod.fst = data.map SectorPerformance.sector ∧
    (mwplChart mdata).map Prod.fst = mdata.map mwplLabel := by
  rcases p with ⟨c0, o0, t0⟩
  refine ⟨⟨?_, ?_, ?_, ?_⟩, rfl, rfl,
    by simp [sectorChart, List.map_map, Function.comp],
    by simp [mwplChart, List.map_map, Function.comp]⟩ <;>
    cases c0 <;> cases o0 <;> cases t0 <;> rfl

/-! ## Claim C5 -/

/-- C5: fixed-max scaling of the MWPL chart.  Every rendered bar has width
percentage |v| / 100 * 100 against the constant ceiling 100; its class slots
are only the period classes (the `MwplBar` element has no sign slot at all);
the value 45 renders at width 45%; values are not clamped: 145 renders at
width 145% > 100%. -/
theorem c5_mwpl_fixed_max_scaling (p : PeriodPerformance) (b : MwplBar)
    (hb : b ∈ mwplBars p) :
    (∃ v, v ∈ periodValues p ∧ b.widthPct = |v| / 100 * 100 ∧
       (b.periodClass = "current" ∨ b.periodClass = "one-week"
         ∨ b.periodClass = "two-weeks")) ∧
    (mwplBars ⟨some 45, none, none⟩).map MwplBar.widthPct = [45] ∧
    (mwplBars ⟨some 145, none, none⟩).map MwplBar.widthPct = [145] ∧
    (100 : Rat) < 145 :=
  ⟨mwplBars_mem hb,
   by
     norm_num [mwplBars, sectorPeriods, mkMwplBar, List.filterMap_cons,
       List.filterMap_nil, abs, max_def],
   by
     norm_num [mwplBars, sectorPeriods, mkMwplBar, List.filterMap_cons,
       List.filterMap_nil, abs, max_def],
   by norm_num⟩

/-- C5 witness at a concrete bar. -/
theorem c5_mwpl_fixed_max_scaling_witness :
    ((⟨"current", 45⟩ : MwplBar) ∈ mwplBars ⟨some 45, none, none⟩) ∧
    (mwplBars ⟨some 45, none, none⟩).map MwplBar.widthPct = [45] :=
  ⟨by norm_num [mwplBars, sectorPeriods, mkMwplBar, List.filterMap_cons,
      List.filterMap_nil, abs, max_def],
   (c5_mwpl_fixed_max_scaling ⟨some 45, none, none⟩ ⟨"current", 45⟩
     (by norm_num [mwplBars, sectorPeriods, mkMwplBar, List.filterMap_cons,
        List.filterMap_nil, abs, max_def])).2.1⟩

/-! ## Lemmas about citation collection -/

theorem mem_dedupAux {α : Type} [DecidableEq α] {x : α} (l : List α) :
    ∀ seen, x ∈ dedupAux l seen ↔ x ∈ l ∧ x ∉ seen := by
  induction l with
  | nil => intro seen; simp [dedupAux]
  | cons a rest ih =>
    intro seen
    by_cases ha : a ∈ seen <;> by_cases hxa : x = a <;>
      simp_all [dedupAux, List.mem_cons, ih]

theorem nodup_dedupAux {α : Type} [DecidableEq α] (l : List α) :
    ∀ seen, (dedupAux l seen).Nodup := by
  induction l with
  | nil => intro seen; simp [dedupAux]
  | cons a rest ih =>
    intro seen
    by_cases ha : a ∈ seen
    · simpa [dedupAux, ha] using ih seen
    · simp only [dedupAux, ha, if_neg, ite_false]
      refine List.nodup_cons.mpr ⟨fun hmem => ?_, ih (a :: seen)⟩
      rcases (mem_dedupAux rest (a :: seen)).mp hmem with ⟨_, hn⟩
      exact hn (List.mem_cons_self a seen)

theorem chunkKey_eq_some {c : Chunk} {k : String × Option String} :
    chunkKey c = some k ↔
      ∃ w, c.web = some w ∧ w.uri = some k.1 ∧ k.1 ≠ "" ∧ w.title = k.2 := by
  rcases c with ⟨w?⟩
  cases w? with
  | none => simp [chunkKey]
  | some w =>
    rcases w with ⟨u?, ti⟩
    cases u? with
    | none => simp [chunkKey]
    | some u =>
      rcases k with ⟨k1, k2⟩
      by_cases hu : u = ""
      · constructor
        · intro h
          simp [chunkKey, hu] at h
        · rintro ⟨w, hw, huri, hne, ht⟩
          injection hw with hw
          subst hw
          simp only at huri
          injection huri with huri
          subst hu
          exact absurd huri.symm hne
      · constructor
        · intro h
          simp only [chunkKey, hu, if_neg, ite_false, Option.some.injEq, Prod.mk.injEq] at h
          rcases h with ⟨rfl, rfl⟩
          exact ⟨⟨some u, ti⟩, rfl, rfl, hu, rfl⟩
        · rintro ⟨w, hw, huri, hne, ht⟩
          injection hw with hw
          subst hw
          simp only at huri ht
          injection huri with huri
          subst huri
          subst ht
          simp [chunkKey, hu]

/-- C6: exactly the candidates carrying a web reference with a present
(non-empty) uri are kept; deduplication is by the exact (uri, title) pair, so
the two candidates sharing uri "https://a" with titles "A" and "B" are both
kept while two candidates identical in uri and title collapse to one; a link
shows the title when present (and non-empty), otherwise the uri; the sources
container becomes visible in a fetch cycle exactly when the chunk list is
supplied and the deduplicated key set is non-empty. -/
theorem c6_citation_collector (chunks : List Chunk) (k : String × Option String)
    (chunks? : Option (List Chunk)) (ui : UIState) :
    (k ∈ sourceKeys chunks ↔
       ∃ c ∈ chunks, ∃ w, c.web = some w ∧ w.uri = some k.1 ∧ k.1 ≠ "" ∧ w.title = k.2) ∧
    (sourceKeys chunks).Nodup ∧
    sourceKeys [⟨some ⟨some "https://a", some "A"⟩⟩, ⟨some ⟨some "https://a", some "B"⟩⟩]
      = [("https://a", some "A"), ("https://a", some "B")] ∧
    sourceKeys [⟨some ⟨some "https://a", some "A"⟩⟩, ⟨some ⟨some "https://a", some "A"⟩⟩]
      = [("https://a", some "A")] ∧
    (∀ u ti, (linkOfKey (u, some ti)).text = (if ti = "" then u else ti) ∧
       (linkOfKey (u, none)).text = u ∧ (linkOfKey (u, some ti)).href = u) ∧
    ((renderSources chunks? (setLoading true ui)).sourcesVisible = true ↔
       ∃ cs, chunks? = some cs ∧ sourceKeys cs ≠ []) := by
  refine ⟨?_, nodup_dedupAux _ _, by decide, by decide,
    fun u ti => ⟨rfl, rfl, rfl⟩, ?_⟩
  · unfold sourceKeys dedupKeepFirst
    rw [mem_dedupAux]
    simp only [List.not_mem_nil, not_false_iff, and_true]
    rw [List.mem_filterMap]
    constructor
    · rintro ⟨c, hc, hk⟩
      exact ⟨c, hc, chunkKey_eq_some.mp hk⟩
    · rintro ⟨c, hc, hw⟩
      exact ⟨c, hc, chunkKey_eq_some.mpr hw⟩
  · cases chunks? with
    | none => simp [renderSources, setLoading]
    | some cs =>
      by_cases h : sourceKeys cs = []
      · simp [renderSources, h, setLoading]
      · simp [renderSources, h, setLoading]

/-! ## Claims C4, C7, C8, C9, C10 -/

/-- A concrete summary payload used by witnesses. -/
def exSummary : MarketSummary := ⟨"a", "b", "c", "d"⟩

/-- A concrete response carrying a fenced candidate and no grounding chunks. -/
def exFencedResp : ModelResponse := ⟨"```json\nX\n```", none⟩

/-- C4 (amended): each of the three sections is rendered independently and
only when its top-level field is truthy, absence of any section is not fatal
(no error is raised, the other sections still render, and a summary-only
response completes the cycle successfully with the chart containers left
hidden) — provided the truthy sections have their declared runtime shape.  A
truthy section of the wrong runtime shape is NOT tolerated: see the
counterexample. -/
theorem c4_section_independence (d : ParsedData) (ui : UIState)
    (h1 : d.sectorPerformance ≠ JsField.illTyped)
    (h2 : d.mwplPerformance ≠ JsField.illTyped) :
    (renderSections d (setLoading true ui)).2 = none ∧
    (renderSections d (setLoading true ui)).1.newsVisible = d.summary.truthy ∧
    (renderSections d (setLoading true ui)).1.perfVisible = d.sectorPerformance.truthy ∧
    (renderSections d (setLoading true ui)).1.mwplVisible = d.mwplPerformance.truthy ∧
    (renderSections d (setLoading true ui)).1.errorVisible = false ∧
    (fetchNews true
        (fun _ => some ⟨JsField.present exSummary, JsField.absent, JsField.absent⟩)
        (Except.ok exFencedResp) initialUI)
      = { initialUI with
            fetchBtnDisabled := false
            newsVisible := true
            newsHtml := summaryMarkup exSummary } := by
  have hconc : (fetchNews true
      (fun _ => some ⟨JsField.present exSummary, JsField.absent, JsField.absent⟩)
      (Except.ok exFencedResp) initialUI)
      = { initialUI with
            fetchBtnDisabled := false
            newsVisible := true
            newsHtml := summaryMarkup exSummary } := by rfl
  rcases d with ⟨s, sp, mp⟩
  cases s <;> cases sp <;> cases mp <;>
    first
      | exact absurd rfl h1
      | exact absurd rfl h2
      | exact ⟨rfl, rfl, rfl, rfl, rfl, hconc⟩

/-- C4 witness: a summary-only payload renders without error. -/
theorem c4_section_independence_witness :
    ((⟨JsField.present exSummary, JsField.absent, JsField.absent⟩ : ParsedData).sectorPerformance
        ≠ JsField.illTyped) ∧
    (renderSections ⟨JsField.present exSummary, JsField.absent, JsField.absent⟩
        (setLoading true initialUI)).2 = none :=
  ⟨fun h => JsField.noConfusion h,
   (c4_section_independence ⟨JsField.present exSummary, JsField.absent, JsField.absent⟩
      initialUI (fun h => JsField.noConfusion h) (fun h => JsField.noConfusion h)).1⟩

/-- C4 counterexample: a payload whose summary is well-formed but whose
sectorPerformance is truthy with the wrong runtime shape (a non-array, so
`performanceData.flatMap` at src/index.tsx:103 throws a TypeError).  The claim
predicts the field is treated as omitted and the cycle still succeeds with the
summary shown; the code instead aborts the whole cycle: the error banner is
shown, the already-rendered summary is hidden, and the render step reports the
thrown error. -/
theorem c4_section_independence_counterexample :
    (fetchNews true
        (fun _ => some ⟨JsField.present exSummary, JsField.illTyped, JsField.absent⟩)
        (Except.ok exFencedResp) initialUI).errorVisible = true ∧
    (fetchNews true
        (fun _ => some ⟨JsField.present exSummary, JsField.illTyped, JsField.absent⟩)
        (Except.ok exFencedResp) initialUI).newsVisible = false ∧
    (renderSections ⟨JsField.present exSummary, JsField.illTyped, JsField.absent⟩
        (setLoading true initialUI)).2 = some PipelineError.RenderError :=
  ⟨rfl, rfl, rfl⟩

/-- C7: a located but syntactically invalid candidate fails the cycle with the
ParseError, a value distinct from the FormatError raised when no candidate is
located, so the two outcomes are distinguishable at the catch boundary; and
invalid JSON never silently yields partial data: in the resulting state every
result container is hidden AND empty and the error banner is shown. -/
theorem c7_parse_error_taxonomy (parse : List Char → Option ParsedData)
    (resp : ModelResponse) (ui : UIState) (cand : List Char)
    (hex : extractPayload resp.text = Except.ok cand)
    (hp : parse cand = none) :
    tryBlock parse (Except.ok resp) (setLoading true ui)
      = (setLoading true ui, some PipelineError.ParseError) ∧
    PipelineError.ParseError ≠ PipelineError.FormatError ∧
    (∀ resp₂ : ModelResponse,
       extractPayload resp₂.text = Except.error PipelineError.FormatError →
       tryBlock parse (Except.ok resp₂) (setLoading true ui)
         = (setLoading true ui, some PipelineError.FormatError)) ∧
    (fetchNews true parse (Except.ok resp) ui).errorVisible = true ∧
    (fetchNews true parse (Except.ok resp) ui).newsVisible = false ∧
    (fetchNews true parse (Except.ok resp) ui).newsHtml = "" ∧
    (fetchNews true parse (Except.ok resp) ui).perfVisible = false ∧
    (fetchNews true parse (Except.ok resp) ui).perfChart = none ∧
    (fetchNews true parse (Except.ok resp) ui).mwplVisible = false ∧
    (fetchNews true parse (Except.ok resp) ui).mwplChart = none ∧
    (fetchNews true parse (Except.ok resp) ui).sourcesVisible = false ∧
    (fetchNews true parse (Except.ok resp) ui).sourcesItems = [] := by
  have htb : tryBlock parse (Except.ok resp) (setLoading true ui)
      = (setLoading true ui, some PipelineError.ParseError) := by
    simp [tryBlock, hex, hp]
  have hfe : fetchNews true parse (Except.ok resp) ui
      = setLoading false (displayError (fetchFailureMessage PipelineError.ParseError)
          (setLoading true ui)) := by
    have hdef : fetchNews true parse (Except.ok resp) ui
        = (match (tryBlock parse (Except.ok resp) (setLoading true ui)).2 with
            | none => setLoading false (tryBlock parse (Except.ok resp) (setLoading true ui)).1
            | some e => setLoading false (displayError (fetchFailureMessage e)
                (tryBlock parse (Except.ok resp) (setLoading true ui)).1)) := rfl
    rw [hdef, htb]
  refine ⟨htb, by simp, fun resp₂ hx => by simp [tryBlock, hx],
    ?_, ?_, ?_, ?_, ?_, ?_, ?_, ?_, ?_⟩ <;>
    simp [hfe, setLoading, displayError]

/-- C7 witness: a fenced candidate that the parse oracle rejects. -/
theorem c7_parse_error_taxonomy_witness :
    extractPayload "```json\nnot json\n```" = Except.ok ("not json".data) ∧
    tryBlock (fun _ => none) (Except.ok ⟨"```json\nnot json\n```", none⟩)
        (setLoading true initialUI)
      = (setLoading true initialUI, some PipelineError.ParseError) :=
  ⟨by rfl,
   (c7_parse_error_taxonomy (fun _ => none) ⟨"```json\nnot json\n```", none⟩ initialUI
      ("not json".data) (by rfl) rfl).1⟩

/-- C8: every fetch cycle that enters Loading (trigger disabled, loader shown
by `setLoading(true)`) ends with the trigger re-enabled and the loader hidden,
on every exit path alike — success, extraction or parse failure, transport
rejection and mid-render failure are all covered since the parse oracle, the
transport outcome and hence the `try` result are universally quantified; the
`finally` clause applies `setLoading(false)` to whichever branch was taken. -/
theorem c8_trigger_control_release (parse : List Char → Option ParsedData)
    (transport : Except String ModelResponse) (ui : UIState) :
    (setLoading true ui).fetchBtnDisabled = true ∧
    (setLoading true ui).loaderVisible = true ∧
    (fetchNews true parse transport ui).fetchBtnDisabled = false ∧
    (fetchNews true parse transport ui).loaderVisible = false := by
  have hm : ∀ (q : UIState × Option PipelineError),
      (match q.2 with
        | none => setLoading false q.1
        | some e => setLoading false (displayError (fetchFailureMessage e) q.1)).fetchBtnDisabled
        = false ∧
      (match q.2 with
        | none => setLoading false q.1
        | some e => setLoading false (displayError (fetchFailureMessage e) q.1)).loaderVisible
        = false := by
    rintro ⟨ui1, e?⟩
    cases e? <;> exact ⟨rfl, rfl⟩
  exact ⟨rfl, rfl, (hm (tryBlock parse transport (setLoading true ui))).1,
    (hm (tryBlock parse transport (setLoading true ui))).2⟩

set_option maxRecDepth 8000 in
/-- C9 (implicit): renderSummary writes the four summary fields into the
container markup by bare string interpolation: each field occurs verbatim as a
contiguous substring of the generated markup, with no HTML escaping — a field
containing markup (here an img tag with an onerror handler) lands in the
document markup with its angle brackets intact (no entity such as the
less-than escape ever appears), so it becomes document structure rather than
literal text. -/
theorem c9_summary_unescaped_interpolation (sm : MarketSummary) (ui : UIState) :
    (renderSummary sm ui).newsHtml = summaryMarkup sm ∧
    sm.marketOverview.data <:+: (summaryMarkup sm).data ∧
    sm.keySectorNews.data <:+: (summaryMarkup sm).data ∧
    sm.majorCorporateAnnouncements.data <:+: (summaryMarkup sm).data ∧
    sm.economicPolicyFactors.data <:+: (summaryMarkup sm).data ∧
    (summaryMarkup ⟨"<img src=x onerror=alert(1)>", "", "", ""⟩).data
      = ("\n    <h2>Market Summary</h2>\n    <h3>Market Overview</h3>\n    <p><img src=x onerror=alert(1)></p>\n    <h3>Key Sector News</h3>\n    <p></p>\n    <h3>Major Corporate Announcements</h3>\n    <p></p>\n    <h3>Economic/Policy Factors</h3>\n    <p></p>\n  ").data ∧
    ¬ ("&lt;".data <:+: (summaryMarkup ⟨"<img src=x onerror=alert(1)>", "", "", ""⟩).data) := by
  refine ⟨rfl, ?_, ?_, ?_, ?_, by rfl, by decide⟩
  · have hd : (summaryMarkup sm).data
        = "\n    <h2>Market Summary</h2>\n    <h3>Market Overview</h3>\n    <p>".data
          ++ sm.marketOverview.data
          ++ ("</p>\n    <h3>Key Sector News</h3>\n    <p>" ++ sm.keySectorNews
              ++ "</p>\n    <h3>Major Corporate Announcements</h3>\n    <p>"
              ++ sm.majorCorporateAnnouncements
              ++ "</p>\n    <h3>Economic/Policy Factors</h3>\n    <p>"
              ++ sm.economicPolicyFactors ++ "</p>\n  ").data := by
      simp [summaryMarkup, String.data_append, List.append_assoc]
    rw [hd]
    exact List.infix_append _ _ _
  · have hd : (summaryMarkup sm).data
        = ("\n    <h2>Market Summary</h2>\n    <h3>Market Overview</h3>\n    <p>"
            ++ sm.marketOverview
            ++ "</p>\n    <h3>Key Sector News</h3>\n    <p>").data
          ++ sm.keySectorNews.data
          ++ ("</p>\n    <h3>Major Corporate Announcements</h3>\n    <p>"
              ++ sm.majorCorporateAnnouncements
              ++ "</p>\n    <h3>Economic/Policy Factors</h3>\n    <p>"
              ++ sm.economicPolicyFactors ++ "</p>\n  ").data := by
      simp [summaryMarkup, String.data_append, List.append_assoc]
    rw [hd]
    exact List.infix_append _ _ _
  · have hd : (summaryMarkup sm).data
        = ("\n    <h2>Market Summary</h2>\n    <h3>Market Overview</h3>\n    <p>"
            ++ sm.marketOverview
            ++ "</p>\n    <h3>Key Sector News</h3>\n    <p>" ++ sm.keySectorNews
            ++ "</p>\n    <h3>Major Corporate Announcements</h3>\n    <p>").data
          ++ sm.majorCorporateAnnouncements.data
          ++ ("</p>\n    <h3>Economic/Policy Factors</h3>\n    <p>"
              ++ sm.economicPolicyFactors ++ "</p>\n  ").data := by
      simp [summaryMarkup, String.data_append, List.append_assoc]
    rw [hd]
    exact List.infix_append _ _ _
  · have hd : (summaryMarkup sm).data
        = ("\n    <h2>Market Summary</h2>\n    <h3>Market Overview</h3>\n    <p>"
            ++ sm.marketOverview
            ++ "</p>\n    <h3>Key Sector News</h3>\n    <p>" ++ sm.keySectorNews
            ++ "</p>\n    <h3>Major Corporate Announcements</h3>\n    <p>"
            ++ sm.majorCorporateAnnouncements
            ++ "</p>\n    <h3>Economic/Policy Factors</h3>\n    <p>").data
          ++ sm.economicPolicyFactors.data
          ++ ("</p>\n  ").data := by
      simp [summaryMarkup, String.data_append, List.append_assoc]
    rw [hd]
    exact List.infix_append _ _ _

/-- C10 (implicit): with the AI client uninitialized, every invocation of
fetchNews is exactly the not-initialized error display and returns before the
loading state: it is independent of the parse oracle and the transport (no
request is observable), the loader flag, the trigger flag and every container
content are left untouched (in particular the button stays enabled when it was
enabled), only the error banner is set; a repeated click reports the same
error again. -/
theorem c10_uninitialized_client (parse parse₂ : List Char → Option ParsedData)
    (transport transport₂ : Except String ModelResponse) (ui : UIState) :
    fetchNews false parse transport ui
      = displayError "AI client is not initialized." ui ∧
    fetchNews false parse transport ui = fetchNews false parse₂ transport₂ ui ∧
    (fetchNews false parse transport ui).loaderVisible = ui.loaderVisible ∧
    (fetchNews false parse transport ui).fetchBtnDisabled = ui.fetchBtnDisabled ∧
    (fetchNews false parse transport ui).newsHtml = ui.newsHtml ∧
    (fetchNews false parse transport ui).perfChart = ui.perfChart ∧
    (fetchNews false parse transport ui).mwplChart = ui.mwplChart ∧
    (fetchNews false parse transport ui).sourcesItems = ui.sourcesItems ∧
    (fetchNews false parse transport ui).errorVisible = true ∧
    (fetchNews false parse transport ui).errorBanner = "AI client is not initialized." ∧
    (fetchNews false parse transport
        (fetchNews false parse transport ui)).errorVisible = true :=
  ⟨rfl, rfl, rfl, rfl, rfl, rfl, rfl, rfl, rfl, rfl, rfl⟩
